import Mathlib

/-!
Verification of the CHILDES age-classification harness.

Shallow embedding of the relevant parts of the repository:
  * `score.py`            — metric computation over gold/predicted label lists
  * `extract_features.py` — `bucket_age` and the feature-extraction loop
  * `evaluate_feature_impacts.py` — `group_for_feature`, the schema guard,
    `filter_features`, and the metric parsing in `score_model`.

Python floats are modelled with `ℚ`; a Python run-time crash (ZeroDivisionError)
is modelled with `Option`/`Except`.
-/

namespace Childes

/-! ## score.py: age-bin tables -/

/-- `AGE_BIN_ORDER` from score.py (ordered list of age bins). -/
def AGE_BIN_ORDER : List String :=
  ["0yo", "1yo", "2yo", "3yo", "4yo", "5yo", "6yo_plus"]

/-- `AGE_BIN_TO_INDEX.get(label, -1)`: ordinal index of a bin, `-1` when the
label is not a bin (the dict default used throughout score.py). -/
def binIndex (s : String) : Int :=
  match s with
  | "0yo" => 0
  | "1yo" => 1
  | "2yo" => 2
  | "3yo" => 3
  | "4yo" => 4
  | "5yo" => 5
  | "6yo_plus" => 6
  | _ => -1

/-- `AGE_BIN_TO_MONTHS.get(label, 0)`: midpoint of a bin in months, `0` when
the label is not a bin. -/
def binMonths (s : String) : Int :=
  match s with
  | "0yo" => 6
  | "1yo" => 18
  | "2yo" => 30
  | "3yo" => 42
  | "4yo" => 54
  | "5yo" => 66
  | "6yo_plus" => 78
  | _ => 0

/-! ## score.py: metric computation

All metrics are computed over `zip(gold, predicted)` (which truncates to the
shorter list, as in Python) with `n = len(gold)`. -/

/-- `num_correct = sum([x[0]==x[1] for x in zip(gold, predicted)])`. -/
def numCorrect (gold predicted : List String) : Nat :=
  ((gold.zip predicted).filter (fun x => x.1 = x.2)).length

/-- `accuracy = num_correct / n * 100.0` (with `n = len(gold)`). -/
def exactAccuracy (gold predicted : List String) : ℚ :=
  (numCorrect gold predicted : ℚ) / (gold.length : ℚ) * 100

/-- The loop body of the within-1-bin count: a pair counts iff both labels
resolve to a bin index and the indices differ by at most 1. -/
def within1Pair (x : String × String) : Bool :=
  0 ≤ binIndex x.1 && 0 ≤ binIndex x.2 && (binIndex x.1 - binIndex x.2).natAbs ≤ 1

/-- `within_1_correct` from score.py. -/
def within1Correct (gold predicted : List String) : Nat :=
  ((gold.zip predicted).filter within1Pair).length

/-- `within_1_accuracy = within_1_correct / n * 100.0`. -/
def within1Accuracy (gold predicted : List String) : ℚ :=
  (within1Correct gold predicted : ℚ) / (gold.length : ℚ) * 100

/-- Macro-averaged recall: per gold label seen in the zipped pairs,
`true_positive_counts[g] / gold_counts[g]`, averaged over the labels and
scaled by 100; `0` when no labels were seen. -/
def macroRecall (gold predicted : List String) : ℚ :=
  let pairs := gold.zip predicted
  let labels := (pairs.map Prod.fst).dedup
  let recallSum : ℚ := (labels.map (fun l =>
    ((pairs.filter (fun x => x.1 = l ∧ x.2 = l)).length : ℚ) /
      ((pairs.filter (fun x => x.1 = l)).length : ℚ))).sum
  if 0 < labels.length then recallSum / (labels.length : ℚ) * 100 else 0

/-- `total_bin_error`: the loop adds `abs(g_idx - p_idx)` only when both
indices are `>= 0`, else adds nothing. -/
def totalBinError (gold predicted : List String) : Nat :=
  ((gold.zip predicted).map (fun x =>
    if 0 ≤ binIndex x.1 ∧ 0 ≤ binIndex x.2
    then (binIndex x.1 - binIndex x.2).natAbs else 0)).sum

/-- `mae_bins = total_bin_error / n` (with `n = len(gold)`). -/
def maeBins (gold predicted : List String) : ℚ :=
  (totalBinError gold predicted : ℚ) / (gold.length : ℚ)

/-- `total_month_error`: `abs(g_months - p_months)` with default 0 for
unresolvable labels, summed over all zipped pairs. -/
def totalMonthError (gold predicted : List String) : Nat :=
  ((gold.zip predicted).map (fun x =>
    (binMonths x.1 - binMonths x.2).natAbs)).sum

/-- `mae_months = total_month_error / n`. -/
def maeMonths (gold predicted : List String) : ℚ :=
  (totalMonthError gold predicted : ℚ) / (gold.length : ℚ)

/-- The five numbers score.py prints under EVALUATION METRICS. -/
structure Metrics where
  accuracy : ℚ
  within1 : ℚ
  macroRec : ℚ
  mae_bins : ℚ
  mae_months : ℚ
  deriving Repr, DecidableEq

/-- All metrics of score.py assembled (defined when `n ≠ 0`). -/
def scoreMetrics (gold predicted : List String) : Metrics :=
  { accuracy := exactAccuracy gold predicted
    within1 := within1Accuracy gold predicted
    macroRec := macroRecall gold predicted
    mae_bins := maeBins gold predicted
    mae_months := maeMonths gold predicted }

/-- The scoring script after the labels are read, as the code actually runs.

The first component records whether the count-mismatch diagnostic was printed
(`len(gold) != len(predicted)`); the `sys.exit` on the next line is a bare
attribute reference, not a call, so execution falls through to the metric
computation either way.  The second component is the metrics report:
`none` models the ZeroDivisionError raised by `num_correct / n` when
`n = len(gold) = 0`. -/
def scoreRun (gold predicted : List String) : Bool × Option Metrics :=
  (decide (gold.length ≠ predicted.length),
    if gold.length = 0 then none else some (scoreMetrics gold predicted))

/-! ## extract_features.py: `bucket_age` -/

/-- `bucket_age(age_months)`: continuous age in months to a label.
`none` models a missing value (`None` or a pandas NaN). -/
def bucket_age (age_months : Option ℚ) : String :=
  match age_months with
  | none => "UNK"
  | some m =>
    if m < 12 then "0yo"
    else if m < 24 then "1yo"
    else if m < 36 then "2yo"
    else if m < 48 then "3yo"
    else if m < 60 then "4yo"
    else if m < 72 then "5yo"
    else "6yo_plus"

/-! ## evaluate_feature_impacts.py: groups and `group_for_feature` -/

def GROUP_LEXICAL : String := "lexical_length"

def GROUP_FUNCTION : String := "function_words"

def GROUP_MORPH : String := "morphology_inflection"

def GROUP_INTEL : String := "intelligibility"

def GROUP_CLASS_PROP : String := "word_class_props"

def GROUP_EXTENDED : String := "extended_syntax"

def GROUP_EXT_BIGRAMS : String := "ext_bigrams"

def GROUP_EXT_TRIGRAMS : String := "ext_trigrams"

def GROUP_EXT_POS : String := "ext_pos"

def GROUP_EXT_POS_BIGRAMS : String := "ext_pos_bigrams"

def GROUP_EXT_POS_TRIGRAMS : String := "ext_pos_trigrams"

def GROUP_EXT_MARKERS : String := "ext_markers"

/-- The six fine-grained extended-syntax sub-groups. -/
def EXTENDED_SUBGROUPS : List String :=
  [GROUP_EXT_BIGRAMS, GROUP_EXT_TRIGRAMS, GROUP_EXT_POS,
    GROUP_EXT_POS_BIGRAMS, GROUP_EXT_POS_TRIGRAMS, GROUP_EXT_MARKERS]

/-- `str.startswith(p)` (list-of-characters semantics; a Python tuple argument
becomes a disjunction of calls). -/
def sw (s p : String) : Bool := p.toList.isPrefixOf s.toList

/-- `group_for_feature(feat, detailed)`: map a raw feature string to its group
name, `none` for an unmapped feature. -/
def group_for_feature (feat : String) (detailed : Bool) : Option String :=
  if sw feat "word_count=" || sw feat "unique_words=" || sw feat "ttr=" ||
      sw feat "first_word=" || sw feat "last_word=" || sw feat "char_len=" then
    some GROUP_LEXICAL
  else if sw feat "function_word_count=" || sw feat "function_word_prop=" ||
      sw feat "function_word_types=" || sw feat "content_to_function_ratio=" then
    some GROUP_FUNCTION
  else if sw feat "mlu_words=" || sw feat "morpheme_count=" || sw feat "mlu_morphemes=" ||
      ["has_ing", "has_ed", "has_3sg_or_plural", "has_possessive"].contains feat then
    some GROUP_MORPH
  else if sw feat "unintelligible_count=" || sw feat "unintelligible_prop=" ||
      sw feat "unintelligible_bin=" || feat == "has_unintelligible" then
    some GROUP_INTEL
  else if sw feat "prop_nouns=" || sw feat "prop_verbs=" || sw feat "prop_function_words=" then
    some GROUP_CLASS_PROP
  else if sw feat "bigram=" then
    some (if detailed then GROUP_EXT_BIGRAMS else GROUP_EXTENDED)
  else if sw feat "trigram=" then
    some (if detailed then GROUP_EXT_TRIGRAMS else GROUP_EXTENDED)
  else if sw feat "pos=" then
    some (if detailed then GROUP_EXT_POS else GROUP_EXTENDED)
  else if sw feat "pos_bigram=" then
    some (if detailed then GROUP_EXT_POS_BIGRAMS else GROUP_EXTENDED)
  else if sw feat "pos_trigram=" then
    some (if detailed then GROUP_EXT_POS_TRIGRAMS else GROUP_EXTENDED)
  else if sw feat "has_marker_" || ["has_plural", "has_negation"].contains feat then
    some (if detailed then GROUP_EXT_MARKERS else GROUP_EXTENDED)
  else
    none

/-! ## evaluate_feature_impacts.py: schema guard -/

/-- `feat.split("=")[0]`: the feature name before the first `=`. -/
def featName (f : String) : String := String.mk (f.toList.takeWhile (fun c => c ≠ '='))

/-- The unknown feature names of one record, as collected by
`assert_no_unknown_features`: a record line splits into `parts`, the features
are `parts[:-1]`, and a feature is unknown when its coarse group is `None`. -/
def unknownOfRecord (parts : List String) : List String :=
  (parts.dropLast.filter (fun f => (group_for_feature f false).isNone)).map featName

/-- `assert_no_unknown_features` raises iff some record of some file
contributes an unknown feature. -/
def schemaGuardFails (records : List (List String)) : Bool :=
  records.any (fun r => !(unknownOfRecord r).isEmpty)

/-! ## evaluate_feature_impacts.py: `filter_features` -/

/-- `bool(allowed_groups & EXTENDED_SUBGROUPS)`. -/
def useDetailed (allowed : List String) : Bool :=
  allowed.any (fun g => EXTENDED_SUBGROUPS.contains g)

/-- The keep-condition of the filter comprehension:
`group_for_feature(f, detailed=use_detailed) in allowed_groups`
(`None` is never a member of a set of strings). -/
def keepFeat (use_detailed : Bool) (allowed : List String) (f : String) : Bool :=
  match group_for_feature f use_detailed with
  | some g => allowed.contains g
  | none => false

/-- One iteration of the `filter_features` loop on a split record `parts`:
`feats, label = parts[:-1], parts[-1]` and the output record is
`kept + [label]`. -/
def filterRecord (allowed : List String) (parts : List String) : List String :=
  let use_detailed := useDetailed allowed
  (parts.dropLast.filter (keepFeat use_detailed allowed)) ++ [parts.getLastD ""]

/-- `filter_features` over a whole stream of records. -/
def filter_features (allowed : List String) (records : List (List String)) :
    List (List String) :=
  records.map (filterRecord allowed)

/-! ## evaluate_feature_impacts.py: metric parsing in `score_model` -/

/-- Python `\s` for the ASCII range. -/
def isPySpace (c : Char) : Bool :=
  c = ' ' || c = '\t' || c = '\n' || c = '\x0b' || c = '\x0c' || c = '\r'

/-- The character class `[0-9.]`. -/
def isNumChar (c : Char) : Bool := c.isDigit || c = '.'

/-- Remove `key` from the front of `s`, or fail. -/
def dropKey : List Char → List Char → Option (List Char)
  | [], s => some s
  | _ :: _, [] => none
  | k :: ks, c :: cs => if k = c then dropKey ks cs else none

/-- Match the regex `key\s+([0-9.]+)` anchored at the start of `s`,
returning the captured group. -/
def matchAt (key s : List Char) : Option (List Char) :=
  match dropKey key s with
  | none => none
  | some r =>
    if (r.takeWhile isPySpace).isEmpty then none
    else
      let num := (r.dropWhile isPySpace).takeWhile isNumChar
      if num.isEmpty then none else some num

/-- `re.search(key + r"\s+([0-9.]+)", s)`: first position where the pattern
matches, returning the captured number token. -/
def searchNum (key : List Char) : List Char → Option (List Char)
  | [] => matchAt key []
  | c :: rest =>
    match matchAt key (c :: rest) with
    | some num => some num
    | none => searchNum key rest

/-- String-level wrapper for `searchNum`. -/
def searchKeyNum (key out : String) : Option String :=
  (searchNum key.toList out.toList).map (fun l => String.mk l)

/-- The metric-parsing part of `score_model`, applied to the scorer's stdout:
a missing `Exact Accuracy` heading raises; the other three headings are
added to the metrics dict only when their regex matches.  Metric values are
kept as their matched number tokens. -/
def scoreModelParse (out : String) : Except String (List (String × String)) :=
  match searchKeyNum "Exact Accuracy:" out with
  | none => Except.error ("Could not parse accuracy from: " ++ out)
  | some a =>
    let metrics := [("accuracy", a)]
    let metrics := metrics ++
      (match searchKeyNum "Within-1-Bin Acc:" out with
        | some v => [("within_1_acc", v)]
        | none => [])
    let metrics := metrics ++
      (match searchKeyNum "MAE (bins):" out with
        | some v => [("mae_bins", v)]
        | none => [])
    let metrics := metrics ++
      (match searchKeyNum "MAE (months):" out with
        | some v => [("mae_months", v)]
        | none => [])
    Except.ok metrics

/-- `metrics.get(key, default)` as used when `main` assembles a results row
(the Python default is the number `0`, rendered as `"0"`). -/
def dictGetD (d : List (String × String)) (k dflt : String) : String :=
  match d.find? (fun kv => kv.1 == k) with
  | some kv => kv.2
  | none => dflt

/-! ## extract_features.py: helpers for the extraction loop -/

/-- `str.endswith(p)` (a Python tuple argument becomes a disjunction). -/
def ew (s p : String) : Bool := p.toList.isSuffixOf s.toList

/-- ASCII `str.lower()`. -/
def lowerChar (c : Char) : Char :=
  if 'A' ≤ c ∧ c ≤ 'Z' then Char.ofNat (c.toNat + 32) else c

/-- `str.lower()` on a whole string. -/
def lowerStr (s : String) : String := String.mk (s.toList.map lowerChar)

/-- `COMMON_VERBS` from extract_features.py. -/
def COMMON_VERBS : List String :=
  ["go", "goes", "went", "gone", "see", "saw", "seen", "get", "got", "gotten",
    "have", "has", "had", "want", "wants", "wanted", "like", "likes", "liked",
    "make", "makes", "made", "say", "says", "said", "think", "thinks", "thought",
    "come", "comes", "came", "take", "takes", "took", "need", "needs", "needed"]

/-- `COMMON_NOUNS` from extract_features.py. -/
def COMMON_NOUNS : List String :=
  ["dog", "dogs", "cat", "cats", "ball", "balls", "mom", "mommy", "momma", "dad",
    "papa", "daddy", "car", "cars", "toy", "toys", "book", "books", "house",
    "houses", "baby", "babies", "friend", "friends", "boy", "boys", "girl",
    "girls", "shoe", "shoes", "milk", "tummy"]

/-- `UNINTELLIGIBLE_MARKERS`. -/
def UNINTELLIGIBLE_MARKERS : List String := ["xxx", "yyy"]

/-- `QUESTION_WORDS`. -/
def QUESTION_WORDS : List String := ["who", "what", "when", "where", "why", "how"]

/-- `is_verb(tok)`. -/
def is_verb (tok : String) : Bool :=
  if COMMON_VERBS.contains tok then true
  else ew tok "ing" || ew tok "ed" ||
    (ew tok "s" && COMMON_VERBS.contains (String.mk tok.toList.dropLast))

/-- `is_noun(tok)`. -/
def is_noun (tok : String) : Bool :=
  if COMMON_NOUNS.contains tok then true
  else ew tok "s" || ew tok "'s"

/-- Strip a leading and a trailing run of characters not satisfying `p`
(the effect of `re.sub(r"^[^C]+|[^C]+$", "", s)` for a character class `C`). -/
def stripEnds (p : Char → Bool) (l : List Char) : List Char :=
  ((l.dropWhile (fun c => !p c)).reverse.dropWhile (fun c => !p c)).reverse

/-- The character class `[A-Za-z']` of `morpheme_count`. -/
def isMorphChar (c : Char) : Bool :=
  ('A' ≤ c && c ≤ 'Z') || ('a' ≤ c && c ≤ 'z') || c = '\''

/-- `morpheme_count(tok)`: very rough morpheme count. -/
def morpheme_count (tok : String) : Nat :=
  let t := stripEnds isMorphChar (lowerStr tok).toList
  if t.isEmpty then 0
  else
    let s := String.mk t
    let c1 : Nat :=
      if ew s "'s" then 1
      else if ew s "s" && 3 < t.length then 1
      else 0
    let c2 : Nat :=
      if ew s "ing" && 4 < t.length then 1
      else if ew s "ed" && 3 < t.length then 1
      else if ew s "n't" || ew s "'re" || ew s "'ve" then 1
      else 0
    1 + c1 + c2

/-- The character class `[a-z0-9']` stripped around a lowered token. -/
def isNormKeep (c : Char) : Bool :=
  ('a' ≤ c && c ≤ 'z') || c.isDigit || c = '\''

/-- `string.punctuation` with the apostrophe removed (the `PUNCT_TABLE`
deletion set). -/
def PUNCT_CHARS : List Char := "!\"#$%&()*+,-./:;<=>?@[\\]^_`\x7b|\x7d~".toList

/-- `normalize_token(tok)`: lowercase, strip surrounding punctuation while
keeping internal apostrophes, delete remaining punctuation, strip
surrounding apostrophes. -/
def normalize_token (tok : String) : String :=
  let cleaned := (lowerStr tok).toList
  let cleaned := stripEnds isNormKeep cleaned
  let cleaned := cleaned.filter (fun c => !PUNCT_CHARS.contains c)
  let cleaned := stripEnds (fun c => c ≠ '\'') cleaned
  String.mk cleaned

/-- Python `\s` for the ASCII range (whitespace for `str.split()`). -/
def splitWsGo (cur : List Char) : List Char → List (List Char)
  | [] => if cur.isEmpty then [] else [cur.reverse]
  | c :: cs =>
    if isPySpace c then
      if cur.isEmpty then splitWsGo [] cs else cur.reverse :: splitWsGo [] cs
    else splitWsGo (c :: cur) cs

/-- `utter.split()`: split on whitespace runs, no empty words. -/
def splitWhitespace (s : String) : List String :=
  (splitWsGo [] s.toList).map (fun l => String.mk l)

/-- Zero-pad a fractional part to 3 digits. -/
def pad3 (n : Nat) : String :=
  if n < 10 then "00" ++ toString n
  else if n < 100 then "0" ++ toString n
  else toString n

/-- `f"{a/b:.3f}"` for a nonnegative ratio `a / b`: the quotient rounded
half-to-even at the third decimal (real arithmetic modelled exactly). -/
def fmt3R (a b : Nat) : String :=
  let t := a * 1000
  let q := t / b
  let r := t % b
  let m := if 2 * r < b then q else if b < 2 * r then q + 1
    else if q % 2 = 0 then q else q + 1
  toString (m / 1000) ++ "." ++ pad3 (m % 1000)

/-- `utter.replace(",", "<COMMA>")`. -/
def replaceComma (s : String) : String :=
  String.mk ((s.toList.map (fun c => if c = ',' then "<COMMA>".toList else [c])).flatten)

/-! ## extract_features.py: the per-row extraction loop

One iteration of the `for idx, row in df.iterrows()` loop, producing the
comma-separated parts of one output record (features, label last).

`FUNCTION_WORDS` and `CONTRACTION_MAP` come from the `feature_constants`
module, which is not part of the repository sources; the NLTK POS tagger is
external.  All three are parameters of the embedding — no claim depends on
their contents. -/

def extractFeats (FUNCTION_WORDS : List String)
    (CONTRACTION_MAP : String → Option (List String))
    (posTagger : List String → List String)
    (extended_features : Bool) (utter : String) :
    List String :=
  let raw_tokens := splitWhitespace utter
  let tokens := (raw_tokens.map normalize_token).filter (fun t => t ≠ "")
  let lower_tokens := tokens.map lowerStr
  let num_tokens := tokens.length
  let features : List String := ["word_count=" ++ toString num_tokens]
  let features := features ++
    (if 0 < num_tokens then ["ttr=" ++ fmt3R lower_tokens.dedup.length num_tokens]
      else ["ttr=0.000"])
  let features := features ++
    (if 0 < num_tokens then
      ["first_word=" ++ lowerStr (tokens.headD ""),
        "last_word=" ++ lowerStr (tokens.getLastD "")]
      else [])
  let expansions := lower_tokens.map (fun tok => (CONTRACTION_MAP tok).getD [tok])
  let expanded_len := (expansions.map List.length).sum
  let function_word_hits :=
    expansions.flatten.filter (fun piece => FUNCTION_WORDS.contains piece)
  let func_count := function_word_hits.length
  let func_types := function_word_hits.dedup.length
  let features := features ++
    ["function_word_prop=" ++
        (if 0 < expanded_len then fmt3R func_count expanded_len else fmt3R 0 1),
      "function_word_types=" ++ toString func_types]
  let morph_count := (tokens.map morpheme_count).sum
  let features := features ++
    (if 0 < num_tokens then ["mlu_morphemes=" ++ fmt3R morph_count num_tokens]
      else ["mlu_morphemes=0.000"])
  let unintelligible_count :=
    (lower_tokens.filter (fun t => UNINTELLIGIBLE_MARKERS.contains t)).length
  let features := features ++ ["unintelligible_count=" ++ toString unintelligible_count]
  let features := features ++
    (if 0 < num_tokens then
      ["unintelligible_prop=" ++ fmt3R unintelligible_count num_tokens]
      else ["unintelligible_prop=0.000"])
  let features := features ++
    (if 0 < unintelligible_count then ["has_unintelligible"] else [])
  let noun_count := (lower_tokens.filter is_noun).length
  let verb_count := (lower_tokens.filter is_verb).length
  let features := features ++
    (if 0 < num_tokens then
      ["prop_nouns=" ++ fmt3R noun_count num_tokens,
        "prop_verbs=" ++ fmt3R verb_count num_tokens]
      else ["prop_nouns=0.000", "prop_verbs=0.000"])
  let features := features ++
    (match lower_tokens with
      | "i" :: "want" :: _ => ["frame_i_want"]
      | _ => [])
  let features := features ++
    (match lower_tokens with
      | "can" :: "i" :: _ => ["frame_can_i"]
      | _ => [])
  let features := features ++
    (if QUESTION_WORDS.any (fun w => lower_tokens.contains w) then ["has_question"]
      else [])
  let features := features ++
    (if extended_features then
      let pos_tags := if tokens.isEmpty then [] else posTagger tokens
      ((lower_tokens.zip (lower_tokens.drop 1)).map
          (fun x => "bigram=" ++ x.1 ++ "_" ++ x.2)) ++
      ((lower_tokens.zip ((lower_tokens.drop 1).zip (lower_tokens.drop 2))).map
          (fun x => "trigram=" ++ x.1 ++ "_" ++ x.2.1 ++ "_" ++ x.2.2)) ++
      ((["because", "when", "that", "if", "so"].filter
          (fun sm => lower_tokens.contains sm)).map (fun sm => "has_marker_" ++ sm)) ++
      ((lower_tokens.filter (fun t => ew t "s" && 1 < t.toList.length)).map
          (fun _ => "has_plural")) ++
      (if lower_tokens.contains "not" || lower_tokens.contains "don't" then
        ["has_negation"] else []) ++
      (if pos_tags.any (fun tag => tag == "VBD") then ["has_past_tense"] else []) ++
      ["utter=" ++ replaceComma utter]
    else [])
  features

/-- One full loop iteration: the features followed by the bucketed age label,
always last (`features.append(label)`). -/
def extractRecord (FUNCTION_WORDS : List String)
    (CONTRACTION_MAP : String → Option (List String))
    (posTagger : List String → List String)
    (extended_features : Bool) (utter : String) (age_months : Option ℚ) :
    List String :=
  extractFeats FUNCTION_WORDS CONTRACTION_MAP posTagger extended_features utter ++
    [bucket_age age_months]

/-! ## Theorems -/

/-- Claim C9: `bucket_age` is a pure function of age in months mapping
23 months to `1yo` and 24 months to `2yo` (each bucket boundary is
inclusive-low on the upper bucket), and a missing/NaN age to `UNK`. -/
theorem c9_bucket_age_boundaries :
    bucket_age (some 23) = "1yo" ∧ bucket_age (some 24) = "2yo" ∧
    bucket_age none = "UNK" := by
  refine ⟨?_, ?_, rfl⟩ <;> norm_num [bucket_age]

/-- Claim C10: on two empty label streams the counts match (no mismatch
diagnostic), yet the scorer crashes on the division `num_correct / n` with
`n = 0` and produces no metrics report. -/
theorem c10_empty_streams_divide_by_zero :
    scoreRun [] [] = (false, none) := by
  simp [scoreRun]

/-- Claim C2 (code bug): with 1 gold label and 2 predicted labels the scorer
takes the mismatch branch and prints the diagnostic, but the bare `sys.exit`
on line 81 of score.py is never called, so the run falls through and computes
a full metrics report anyway. -/
theorem c2_mismatch_does_not_exit :
    scoreRun ["0yo"] ["0yo", "1yo"] = (true, some ⟨100, 100, 100, 0, 0⟩) := by
  simp [scoreRun, scoreMetrics, exactAccuracy, within1Accuracy, macroRecall, maeBins,
    maeMonths, numCorrect, within1Correct, within1Pair, totalBinError, totalMonthError,
    binIndex, binMonths]

/-- The spec's MAE-in-buckets formula: the arithmetic mean of
`|gold_idx − pred_idx|` over exactly the positions where both labels resolve
to a bucket index (unresolvable positions excluded from the denominator too). -/
def maeBinsSpec (gold predicted : List String) : ℚ :=
  let resolved := (gold.zip predicted).filter
    (fun x => decide (0 ≤ binIndex x.1) && decide (0 ≤ binIndex x.2))
  ((resolved.map (fun x => ((binIndex x.1 - binIndex x.2).natAbs : ℚ))).sum) /
    (resolved.length : ℚ)

/-- The amended formula: the same numerator, but divided by the total number
of gold labels `n`, as score.py actually does. -/
def maeBinsTotalMean (gold predicted : List String) : ℚ :=
  let resolved := (gold.zip predicted).filter
    (fun x => decide (0 ≤ binIndex x.1) && decide (0 ≤ binIndex x.2))
  ((resolved.map (fun x => ((binIndex x.1 - binIndex x.2).natAbs : ℚ))).sum) /
    (gold.length : ℚ)

/-- Claim C3 as stated is false: with gold `[UNK, 0yo]` and predictions
`[0yo, 2yo]` only the second position resolves, so the spec's mean is
`2 / 1 = 2`, but score.py divides the error sum by `n = 2` and reports `1`. -/
theorem c3_counterexample :
    maeBins ["UNK", "0yo"] ["0yo", "2yo"] ≠ maeBinsSpec ["UNK", "0yo"] ["0yo", "2yo"] := by
  simp [maeBins, maeBinsSpec, totalBinError, binIndex]

/-- The if-guarded error sum over all pairs equals the error sum over the
resolvable pairs. -/
theorem totalBinError_eq_filter_sum (l : List (String × String)) :
    ((l.map (fun x =>
        if 0 ≤ binIndex x.1 ∧ 0 ≤ binIndex x.2
        then (binIndex x.1 - binIndex x.2).natAbs else 0)).sum : ℚ) =
      ((l.filter (fun x => decide (0 ≤ binIndex x.1) && decide (0 ≤ binIndex x.2))).map
        (fun x => ((binIndex x.1 - binIndex x.2).natAbs : ℚ))).sum := by
  induction l with
  | nil => simp
  | cons a t ih =>
    by_cases h : 0 ≤ binIndex a.1 ∧ 0 ≤ binIndex a.2
    · simp [List.filter_cons, h, ih]
    · simp [List.filter_cons, h, ih]

/-- Claim C3 amended: for every equal-length nonempty pair of label lists,
score.py's MAE-in-buckets is the sum of `|gold_idx − pred_idx|` over the
positions where both labels resolve, divided by the total number of
positions `n` (unresolvable positions are dropped from the numerator but
still counted in the denominator). -/
theorem c3_mae_bins_total_denominator (gold predicted : List String)
    (_hlen : gold.length = predicted.length) (_hne : gold ≠ []) :
    maeBins gold predicted = maeBinsTotalMean gold predicted := by
  unfold maeBins maeBinsTotalMean totalBinError
  rw [totalBinError_eq_filter_sum]

/-- Witness for `c3_mae_bins_total_denominator` at gold `[UNK, 0yo]`,
predictions `[0yo, 2yo]`. -/
theorem c3_mae_bins_total_denominator_witness :
    maeBins ["UNK", "0yo"] ["0yo", "2yo"] = maeBinsTotalMean ["UNK", "0yo"] ["0yo", "2yo"] :=
  c3_mae_bins_total_denominator ["UNK", "0yo"] ["0yo", "2yo"] rfl (by decide)

/-- Claim C5 as stated is false: with gold `[UNK]` and prediction `[UNK]`
the single position is an exact match (accuracy 100%), but `UNK` has no
bucket index, so the within-1 count stays 0 and within-1 accuracy is 0%. -/
theorem c5_counterexample :
    within1Accuracy ["UNK"] ["UNK"] < exactAccuracy ["UNK"] ["UNK"] := by
  simp [within1Accuracy, exactAccuracy, within1Correct, numCorrect, within1Pair, binIndex]

/-- Claim C5 amended: for every equal-length nonempty pair of label lists in
which every exactly-matched label resolves to a bucket index, within-1-bucket
accuracy is at least exact accuracy (an exact match whose label has no bucket
index, e.g. `UNK`, counts for exact accuracy but not for within-1). -/
theorem c5_within1_ge_exact (gold predicted : List String)
    (_hlen : gold.length = predicted.length) (hne : gold ≠ [])
    (hres : ∀ x ∈ gold.zip predicted, x.1 = x.2 → 0 ≤ binIndex x.1) :
    exactAccuracy gold predicted ≤ within1Accuracy gold predicted := by
  unfold exactAccuracy within1Accuracy
  have hcount : numCorrect gold predicted ≤ within1Correct gold predicted := by
    unfold numCorrect within1Correct
    rw [← List.countP_eq_length_filter, ← List.countP_eq_length_filter]
    apply List.countP_mono_left
    intro x hx h
    have hxx : x.1 = x.2 := by simpa using h
    have h1 : 0 ≤ binIndex x.1 := hres x hx hxx
    simp [within1Pair, ← hxx, h1]
  have hn : (0 : ℚ) < (gold.length : ℚ) := by
    have : 0 < gold.length := List.length_pos.mpr hne
    exact_mod_cast this
  have hdiv : (numCorrect gold predicted : ℚ) / (gold.length : ℚ) ≤
      (within1Correct gold predicted : ℚ) / (gold.length : ℚ) := by
    apply div_le_div_of_nonneg_right ?_ hn.le
    exact_mod_cast hcount
  nlinarith [hdiv]

/-- Witness for `c5_within1_ge_exact` at gold `[0yo]`, prediction `[0yo]`. -/
theorem c5_within1_ge_exact_witness :
    exactAccuracy ["0yo"] ["0yo"] ≤ within1Accuracy ["0yo"] ["0yo"] :=
  c5_within1_ge_exact ["0yo"] ["0yo"] rfl (by decide)
    (by intro x hx h; simp at hx; simp [hx, binIndex])

/-- Claim C6: for every feature name, the detailed view agrees with the
coarse view whenever the coarse group is not the extended-syntax group
(including unmapped names); every name whose coarse group is extended-syntax
is assigned one of the six named sub-groups by the detailed view; and a name
in a detailed sub-group always has coarse group extended-syntax (so the
detailed view partitions exactly the extended-syntax names). -/
theorem c6_detailed_refines_coarse (feat : String) :
    (group_for_feature feat false ≠ some GROUP_EXTENDED →
      group_for_feature feat true = group_for_feature feat false) ∧
    (group_for_feature feat false = some GROUP_EXTENDED →
      group_for_feature feat true ∈ EXTENDED_SUBGROUPS.map some) ∧
    (group_for_feature feat true ∈ EXTENDED_SUBGROUPS.map some →
      group_for_feature feat false = some GROUP_EXTENDED) := by
  unfold group_for_feature
  generalize (sw feat "word_count=" || sw feat "unique_words=" || sw feat "ttr=" ||
    sw feat "first_word=" || sw feat "last_word=" || sw feat "char_len=") = b1
  generalize (sw feat "function_word_count=" || sw feat "function_word_prop=" ||
    sw feat "function_word_types=" || sw feat "content_to_function_ratio=") = b2
  generalize (sw feat "mlu_words=" || sw feat "morpheme_count=" || sw feat "mlu_morphemes=" ||
    ["has_ing", "has_ed", "has_3sg_or_plural", "has_possessive"].contains feat) = b3
  generalize (sw feat "unintelligible_count=" || sw feat "unintelligible_prop=" ||
    sw feat "unintelligible_bin=" || feat == "has_unintelligible") = b4
  generalize (sw feat "prop_nouns=" || sw feat "prop_verbs=" ||
    sw feat "prop_function_words=") = b5
  generalize sw feat "bigram=" = b6
  generalize sw feat "trigram=" = b7
  generalize sw feat "pos=" = b8
  generalize sw feat "pos_bigram=" = b9
  generalize sw feat "pos_trigram=" = b10
  generalize (sw feat "has_marker_" || ["has_plural", "has_negation"].contains feat) = b11
  revert b1 b2 b3 b4 b5 b6 b7 b8 b9 b10 b11
  decide

/-- Witness for `c6_detailed_refines_coarse`: a lexical feature keeps its
group under the detailed view, and a bigram feature lands in a sub-group. -/
theorem c6_detailed_refines_coarse_witness :
    group_for_feature "word_count=3" true = group_for_feature "word_count=3" false ∧
    group_for_feature "bigram=a_b" true ∈ EXTENDED_SUBGROUPS.map some :=
  ⟨(c6_detailed_refines_coarse "word_count=3").1 (by decide),
    (c6_detailed_refines_coarse "bigram=a_b").2.1 (by decide)⟩

/-- Claim C7: for every record and every allowed-group set, the filtered
record ends with the original record's trailing label, unchanged and in last
position; with an empty allowed-group set the filtered record is the label
alone. -/
theorem c7_label_kept_last (allowed : List String) (parts : List String)
    (_h : parts ≠ []) :
    (filterRecord allowed parts).getLast? = some (parts.getLastD "") ∧
    filterRecord [] parts = [parts.getLastD ""] := by
  constructor
  · unfold filterRecord
    exact List.getLast?_concat _
  · unfold filterRecord
    dsimp only
    have hnone : ∀ f, keepFeat (useDetailed []) [] f = false := by
      intro f
      unfold keepFeat
      cases group_for_feature f (useDetailed []) <;> simp
    rw [List.filter_eq_nil_iff.mpr (fun f _ => by simp [hnone f])]
    rfl

/-- Witness for `c7_label_kept_last` on the record
`["word_count=1", "2yo"]` with the lexical group allowed. -/
theorem c7_label_kept_last_witness :
    (filterRecord [GROUP_LEXICAL] ["word_count=1", "2yo"]).getLast? =
        some ((["word_count=1", "2yo"] : List String).getLastD "") ∧
    filterRecord [] ["word_count=1", "2yo"] =
        [(["word_count=1", "2yo"] : List String).getLastD ""] :=
  c7_label_kept_last [GROUP_LEXICAL] ["word_count=1", "2yo"] (by decide)

/-- One record's filtering is idempotent: re-filtering keeps the kept
features (they already pass the keep-condition) and the appended label. -/
theorem filterRecord_idem (allowed : List String) (parts : List String) :
    filterRecord allowed (filterRecord allowed parts) = filterRecord allowed parts := by
  unfold filterRecord
  dsimp only
  rw [List.dropLast_concat, List.getLastD_concat, List.filter_filter]
  congr 1
  apply List.filter_congr
  intro f _
  cases keepFeat (useDetailed allowed) allowed f <;> simp

/-- Claim C8: filtering a stream twice with the same allowed-group set gives
the same stream as filtering it once (same records, same token order, same
labels). -/
theorem c8_filter_features_idempotent (allowed : List String)
    (records : List (List String)) :
    filter_features allowed (filter_features allowed records) =
      filter_features allowed records := by
  unfold filter_features
  rw [List.map_map]
  apply List.map_congr_left
  intro parts _
  exact filterRecord_idem allowed parts

/-- Claim C4 as stated is false: on a scorer output containing an
`Exact Accuracy` heading but no `Within-1-Bin Acc` heading, `score_model`
returns normally instead of aborting, and `main`'s `metrics.get` silently
defaults the missing within-1 value to 0 in the results row. -/
theorem c4_counterexample :
    scoreModelParse "Exact Accuracy: 50.00" = Except.ok [("accuracy", "50.00")] ∧
    dictGetD [("accuracy", "50.00")] "within_1_acc" "0" = "0" :=
  ⟨rfl, rfl⟩

/-- Claim C4 amended: only a missing `Exact Accuracy` heading makes
`score_model` abort; the `Within-1-Bin Acc`, `MAE (bins)` and `MAE (months)`
headings are optional, and when the within-1 heading is absent the results
row gets the default value 0 for it. -/
theorem c4_only_missing_accuracy_aborts (out : String) :
    ((scoreModelParse out).isOk ↔ (searchKeyNum "Exact Accuracy:" out).isSome) ∧
    (∀ d, scoreModelParse out = Except.ok d →
      searchKeyNum "Within-1-Bin Acc:" out = none →
      dictGetD d "within_1_acc" "0" = "0") := by
  constructor
  · cases h : searchKeyNum "Exact Accuracy:" out <;> simp [scoreModelParse, h, Except.isOk, Except.toBool]
  · intro d hd hw
    unfold scoreModelParse at hd
    cases h : searchKeyNum "Exact Accuracy:" out
    · rw [h] at hd
      exact absurd hd (by simp)
    · rw [h, hw] at hd
      cases hb : searchKeyNum "MAE (bins):" out <;> rw [hb] at hd <;>
        cases hm : searchKeyNum "MAE (months):" out <;> rw [hm] at hd <;>
        · injection hd with hd
          subst hd
          simp [dictGetD, List.find?]

/-- Witness for `c4_only_missing_accuracy_aborts` at the output
`"Exact Accuracy: 50.00"`, whose within-1 heading is absent. -/
theorem c4_only_missing_accuracy_aborts_witness :
    dictGetD [("accuracy", "50.00")] "within_1_acc" "0" = "0" :=
  (c4_only_missing_accuracy_aborts "Exact Accuracy: 50.00").2
    [("accuracy", "50.00")] rfl rfl

/-- Claim C1 (code bug): on the single-token utterance `"xxx"` (age 30
months) in extended mode, the extractor emits the token `utter=xxx`, which
`group_for_feature` maps to no group, so the schema guard
`assert_no_unknown_features` raises on this extracted superset — for every
row, since the `utter=` token is emitted unconditionally in extended mode
(likewise `frame_i_want`, `frame_can_i`, `has_question`, `has_past_tense`
are emitted but unmapped). -/
theorem c1_extractor_emits_unmapped_features :
    "utter=xxx" ∈ extractRecord [] (fun _ => none) (fun _ => []) true "xxx" (some 30) ∧
    group_for_feature "utter=xxx" false = none ∧
    schemaGuardFails [extractRecord [] (fun _ => none) (fun _ => []) true "xxx" (some 30)] =
      true := by
  have hb : bucket_age (some 30) = "2yo" := by norm_num [bucket_age]
  unfold extractRecord
  rw [hb]
  exact ⟨by decide, by decide, by decide⟩

end Childes
